import Mathlib

/-!
Verification development for the identity-apps front-end units:
the profile service client (`getGravatarImage`, `getProfileInfo`,
`updateProfileInfo`, `getProfileSchemas`, `switchAccount`), the email-template
list page (client-side pagination), and the static `applicationConfig`
feature-configuration object.

The JavaScript/TypeScript code is shallowly embedded: JSON-ish runtime values
become the inductive `JsVal`; promise chains `.then(...).catch(...)` become
`Except`-valued functions where the outcome of each external HTTP call is an
explicit input; side effects that the claims mention (the `onSCIMDisabled`
callback, invocations of `getGravatarImage`, network requests issued by the
page component) are made visible as explicit counters / request lists.
-/

set_option autoImplicit false

namespace IdentityApps

/-- A JavaScript runtime value, as needed by the embedded code: `undefined`,
`null`, strings, numbers, arrays and plain objects. An object literal is kept
as its field list in literal order; duplicate keys (which arise from spread
syntax) are resolved by last-occurrence-wins lookup, matching JS literal
evaluation. -/
inductive JsVal where
  | jundefined : JsVal
  | jnull : JsVal
  | jstr (s : String) : JsVal
  | jnum (n : Int) : JsVal
  | jarr (xs : List JsVal) : JsVal
  | jobj (fields : List (String × JsVal)) : JsVal
  deriving Repr

/-- Last-occurrence-biased association lookup: the value of key `k` in an
object literal whose fields were written in this order (later writes of the
same key overwrite earlier ones, as in JS). -/
def assocGetLast (k : String) : List (String × JsVal) → Option JsVal
  | [] => none
  | p :: rest =>
    match assocGetLast k rest with
    | some v => some v
    | none => if p.1 = k then some p.2 else none

/-- JS truthiness: `undefined`, `null`, `""` and `0` are falsy; every array
and object (empty or not) is truthy. -/
def truthy : JsVal → Bool
  | .jundefined => false
  | .jnull => false
  | .jstr s => !s.isEmpty
  | .jnum n => n ≠ 0
  | .jarr _ => true
  | .jobj _ => true

/-- lodash `_.isEmpty`: `undefined`/`null` are empty, strings and arrays are
empty iff their length is 0, objects iff they have no own keys, and numbers
(having neither length nor keys) are always empty. -/
def lodashIsEmpty : JsVal → Bool
  | .jundefined => true
  | .jnull => true
  | .jstr s => s.isEmpty
  | .jnum _ => true
  | .jarr xs => xs.isEmpty
  | .jobj fs => fs.isEmpty

/-- Property read `v.k` on a value that is not `undefined`/`null`: objects
look the key up, primitives and arrays yield `undefined` (no string/array
built-ins are accessed by the embedded code). -/
def jsGetD : JsVal → String → JsVal
  | .jobj fs, k => (assocGetLast k fs).getD .jundefined
  | _, _ => .jundefined

/-- Property read `v.k` including the throwing cases: reading a member of
`undefined` or `null` raises a `TypeError` (modelled as `Except.error ()`). -/
def jsMember : JsVal → String → Except Unit JsVal
  | .jundefined, _ => .error ()
  | .jnull, _ => .error ()
  | v, k => .ok (jsGetD v k)

/-- Index read `v[0]`: throws on `undefined`/`null`; on an array yields the
first element (or `undefined`); on a string yields its first character as a
one-character string (or `undefined` when empty); on a number yields
`undefined`; on an object coerces the index to the key `"0"`. -/
def jsIndexZero : JsVal → Except Unit JsVal
  | .jundefined => .error ()
  | .jnull => .error ()
  | .jarr xs => .ok (xs.getD 0 .jundefined)
  | .jstr s => .ok (if s.isEmpty then .jundefined else .jstr (String.mk [s.get 0]))
  | .jnum _ => .ok .jundefined
  | .jobj fs => .ok ((assocGetLast "0" fs).getD .jundefined)

/-- The check `typeof v === "string"`. -/
def isStringVal : JsVal → Bool
  | .jstr _ => true
  | _ => false

/-- JS `a || b`. -/
def jsOr (a b : JsVal) : JsVal := if truthy a then a else b

/-- Whether `v` is `undefined` or `null` (member access on it throws). -/
def jsNullish : JsVal → Bool
  | .jundefined => true
  | .jnull => true
  | _ => false

/-- Strict equality `v === "500"`. -/
def jsIsStr500 : JsVal → Bool
  | .jstr s => s = "500"
  | _ => false

/-- Object-spread `...v` inside an object literal: spreading an object copies
its fields, spreading an array or a string copies index-keyed entries, and
spreading other primitives contributes nothing. -/
def spreadFields : JsVal → List (String × JsVal)
  | .jobj fs => fs
  | .jarr xs => (xs.enum.map fun p => (toString p.1, p.2))
  | .jstr s => (s.toList.enum.map fun p => (toString p.1, JsVal.jstr (String.mk [p.2])))
  | _ => []

/-- An axios response as consumed by the client code: HTTP status, parsed
body, and the request / config diagnostic objects. -/
structure AxiosResponse where
  status : Int
  data : JsVal
  request : JsVal
  config : JsVal
  deriving Repr

/-- An axios transport error: the diagnostic fields the catch blocks read
(`stack`, `code`, `request`, `response`, `config`); `response` is the server
response when one was received. -/
structure AxiosError where
  stack : JsVal
  code : JsVal
  request : JsVal
  response : Option AxiosResponse
  config : JsVal
  deriving Repr

/-- Modelled from the spec: the error-code constants of the `ProfileConstants`
module, which is outside the provided sources (only its uses appear). The
spec describes them as fixed per-operation error code constants, so they are
modelled as an enumeration of distinct abstract constants. -/
inductive ProfileConstant where
  | GRAVATAR_IMAGE_FETCH_REQUEST_ERROR
  | PROFILE_INFO_FETCH_REQUEST_INVALID_RESPONSE_CODE_ERROR
  | PROFILE_INFO_FETCH_REQUEST_ERROR
  | PROFILE_INFO_UPDATE_REQUEST_INVALID_RESPONSE_CODE_ERROR
  | PROFILE_INFO_UPDATE_REQUEST_ERROR
  | SCHEMA_FETCH_REQUEST_INVALID_RESPONSE_CODE_ERROR
  | SCHEMA_FETCH_REQUEST_ERROR
  | ACCOUNT_SWITCH_REQUEST_ERROR
  deriving DecidableEq, Repr

/-- Modelled from the spec: the `IdentityAppsApiException` class, which is
outside the provided sources. The spec gives the exception shape surfaced to
callers as `(errorCode, stackTrace?, httpStatusOrCode?, request?, response?,
requestConfig?)`, matching the positional constructor arguments at every use
site in the client code. -/
structure IdentityAppsApiException where
  errorCode : ProfileConstant
  stackTrace : JsVal
  httpStatusOrCode : JsVal
  request : JsVal
  response : Option AxiosResponse
  requestConfig : JsVal
  deriving Repr

/-- A thrown JS value inside the client promise chains: an
`IdentityAppsApiException`, an axios transport error, or a `TypeError` raised
by member access on `undefined`/`null`. -/
inductive JsErr where
  | apiExn (e : IdentityAppsApiException) : JsErr
  | axiosErr (e : AxiosError) : JsErr
  | typeError : JsErr
  deriving Repr

/-- The read of `error.stack` in the catch blocks. On an
`IdentityAppsApiException` the spec's exception shape exposes `stackTrace`,
not `stack`, so the read yields `undefined`; a `TypeError`'s runtime stack
string is unknowable and likewise modelled `undefined`. -/
def JsErr.stackOf : JsErr → JsVal
  | .axiosErr e => e.stack
  | .apiExn _ => .jundefined
  | .typeError => .jundefined

/-- The read of `error.code` in the catch blocks (the spec's exception shape has
no `code` property, so it reads as `undefined` on an exception). -/
def JsErr.codeOf : JsErr → JsVal
  | .axiosErr e => e.code
  | .apiExn _ => .jundefined
  | .typeError => .jundefined

/-- The read of `error.request` in the catch blocks. -/
def JsErr.requestOf : JsErr → JsVal
  | .axiosErr e => e.request
  | .apiExn e => e.request
  | .typeError => .jundefined

/-- The read of `error.response` in the catch blocks. -/
def JsErr.responseOf : JsErr → Option AxiosResponse
  | .axiosErr e => e.response
  | .apiExn e => e.response
  | .typeError => none

/-- The read of `error.config` in the catch blocks (the spec's exception shape
names the field `requestConfig`, so `config` reads as `undefined` on an
exception). -/
def JsErr.configOf : JsErr → JsVal
  | .axiosErr e => e.config
  | .apiExn _ => .jundefined
  | .typeError => .jundefined

/-- The uniform catch-block wrapper:
`new IdentityAppsApiException(c, error.stack, error.code, error.request,
error.response, error.config)`. -/
def wrapCatch (c : ProfileConstant) (e : JsErr) : IdentityAppsApiException :=
  { errorCode := c
    stackTrace := e.stackOf
    httpStatusOrCode := e.codeOf
    request := e.requestOf
    response := e.responseOf
    requestConfig := e.configOf }

/-- The guard of `getProfileInfo`'s catch block, as a function of the caught
error's `response`: `error.response && error.response.data &&
error.response.data.status && error.response.data.status === "500"`. -/
def payloadReports500 : Option AxiosResponse → Bool
  | none => false
  | some r =>
    truthy r.data &&
      (truthy (jsGetD r.data "status") && jsIsStr500 (jsGetD r.data "status"))

/-- The catch-block condition of `getProfileInfo` on the caught error. -/
def scimDisabledCond (e : JsErr) : Bool :=
  payloadReports500 e.responseOf

/-- The function `getGravatarImage`: the gravatar URL existence check. `url` is the URL
built by `ProfileUtils.buildGravatarURL`, `outcome` the result of
`axios.request` on it. On success the call resolves with the URL itself; on
failure it throws `GRAVATAR_IMAGE_FETCH_REQUEST_ERROR` wrapping the axios
error's diagnostics. -/
def getGravatarImage (url : String) (outcome : Except AxiosError Unit) :
    Except JsErr String :=
  match outcome with
  | .ok _ => .ok url
  | .error e =>
    .error (.apiExn (wrapCatch .GRAVATAR_IMAGE_FETCH_REQUEST_ERROR (.axiosErr e)))

/-- The email argument passed to the gravatar fetch inside `getProfileInfo`:
`typeof response.data.emails[0] === "string" ? response.data.emails[0]
: response.data.emails[0].value`. A `TypeError` (emails missing, empty,
or first entry nullish) is `Except.error ()`. -/
def emailArg (data : JsVal) : Except Unit JsVal := do
  let emails ← jsMember data "emails"
  let e0 ← jsIndexZero emails
  if isStringVal e0 then pure e0 else jsMember e0 "value"

/-- The name of the SCIM enterprise-user extension schema used as the
organisation key. -/
def orgKey : String := "urn:ietf:params:scim:schemas:extension:enterprise:2.0:User"

/-- The explicitly written fields of the `profileResponse` object literal
built by `getProfileInfo`'s success handler, in literal order (the spread
`...response.data` follows them). -/
def profileResponseExplicit (data : JsVal) (gravatar : String) (status : Int) :
    List (String × JsVal) :=
  let profileImage : JsVal :=
    if truthy (jsGetD data "profileUrl") then jsGetD data "profileUrl"
    else .jstr gravatar
  [ ("emails", jsOr (jsGetD data "emails") (.jstr "")),
    ("name", jsOr (jsGetD data "name")
      (.jobj [("familyName", .jstr ""), ("givenName", .jstr "")])),
    ("organisation",
      if truthy (jsGetD data orgKey) then jsGetD (jsGetD data orgKey) "organization"
      else .jstr ""),
    ("phoneNumbers", jsOr (jsGetD data "phoneNumbers") (.jarr [])),
    ("profileUrl", jsOr (jsGetD data "profileUrl") (.jstr "")),
    ("responseStatus", jsOr (.jnum status) .jnull),
    ("roles", jsOr (jsGetD data "roles") (.jarr [])),
    ("userImage", jsOr (jsGetD data "userImage") profileImage),
    ("userName", jsOr (jsGetD data "userName") (.jstr "")) ]

/-- The full field list of the `profileResponse` object literal: the explicit
fields followed by the spread `...response.data`. -/
def profileResponseFields (data : JsVal) (gravatar : String) (status : Int) :
    List (String × JsVal) :=
  profileResponseExplicit data gravatar status ++ spreadFields data

/-- The gravatar-fallback block of `getProfileInfo`'s success handler:
`let gravatar = ""` followed by the guarded
`try { gravatar = await getGravatarImage(...) } catch { gravatar = "" }`.
`gravatarOutcome` is the settled outcome of the `getGravatarImage` promise,
consumed only when the call is actually made. Returns the resulting
`gravatar` string and the number of `getGravatarImage` invocations. -/
def gravatarStep (data : JsVal) (gravatarOutcome : Except JsErr String) :
    String × Nat :=
  if lodashIsEmpty (jsGetD data "userImage") && !truthy (jsGetD data "profileUrl") then
    match emailArg data with
    | .error _ => ("", 0)
    | .ok _ =>
      match gravatarOutcome with
      | .ok url => (url, 1)
      | .error _ => ("", 1)
  else ("", 0)

/-- The `.then` handler of `getProfileInfo`. Returns the handler's outcome
together with the number of `getGravatarImage` invocations (0 or 1). -/
def getProfileInfoThen (gravatarOutcome : Except JsErr String)
    (resp : AxiosResponse) : Except JsErr JsVal × Nat :=
  if resp.status ≠ 200 then
    (.error (.apiExn
      { errorCode := .PROFILE_INFO_FETCH_REQUEST_INVALID_RESPONSE_CODE_ERROR
        stackTrace := .jnull
        httpStatusOrCode := .jnum resp.status
        request := resp.request
        response := some resp
        requestConfig := resp.config }), 0)
  else if jsNullish resp.data then
    -- the first member access `response.data.userImage` throws
    (.error .typeError, 0)
  else
    let gRun := gravatarStep resp.data gravatarOutcome
    (.ok (.jobj (profileResponseFields resp.data gRun.1 resp.status)), gRun.2)

/-- The observable outcome of one `getProfileInfo` call: the settled promise,
the number of `onSCIMDisabled` invocations, and the number of
`getGravatarImage` invocations. -/
structure ProfileCallResult where
  result : Except JsErr JsVal
  scimDisabledCalls : Nat
  gravatarAttempts : Nat
  deriving Repr

/-- The function `getProfileInfo`: `httpOutcome` is the settled outcome of the
`httpClient(requestConfig)` promise, `gravatarOutcome` that of the inner
`getGravatarImage` call (consumed only if made). The catch block fires
`onSCIMDisabled` when its 500-payload guard holds and rethrows the wrapped
exception. -/
def getProfileInfo (httpOutcome : Except AxiosError AxiosResponse)
    (gravatarOutcome : Except JsErr String) : ProfileCallResult :=
  match httpOutcome with
  | .error e =>
    { result := .error (.apiExn (wrapCatch .PROFILE_INFO_FETCH_REQUEST_ERROR (.axiosErr e)))
      scimDisabledCalls := if scimDisabledCond (.axiosErr e) then 1 else 0
      gravatarAttempts := 0 }
  | .ok resp =>
    match getProfileInfoThen gravatarOutcome resp with
    | (.ok v, g) =>
      { result := .ok v, scimDisabledCalls := 0, gravatarAttempts := g }
    | (.error e, g) =>
      { result := .error (.apiExn (wrapCatch .PROFILE_INFO_FETCH_REQUEST_ERROR e))
        scimDisabledCalls := if scimDisabledCond e then 1 else 0
        gravatarAttempts := g }

/-- The `.then` handler of `updateProfileInfo`: non-200 throws the invalid
response-code exception, otherwise the call resolves with `response.data`. -/
def updateProfileInfoThen (resp : AxiosResponse) : Except JsErr JsVal :=
  if resp.status ≠ 200 then
    .error (.apiExn
      { errorCode := .PROFILE_INFO_UPDATE_REQUEST_INVALID_RESPONSE_CODE_ERROR
        stackTrace := .jnull
        httpStatusOrCode := .jnum resp.status
        request := resp.request
        response := some resp
        requestConfig := resp.config })
  else .ok resp.data

/-- The function `updateProfileInfo`, over the settled HTTP outcome. -/
def updateProfileInfo (httpOutcome : Except AxiosError AxiosResponse) :
    Except JsErr JsVal :=
  match httpOutcome with
  | .error e =>
    .error (.apiExn (wrapCatch .PROFILE_INFO_UPDATE_REQUEST_ERROR (.axiosErr e)))
  | .ok resp =>
    (updateProfileInfoThen resp).mapError
      fun e => .apiExn (wrapCatch .PROFILE_INFO_UPDATE_REQUEST_ERROR e)

/-- The `.then` handler of `getProfileSchemas`: non-200 throws the invalid
response-code exception, otherwise the call resolves with
`response.data[0].attributes` (member access may raise a `TypeError`). -/
def getProfileSchemasThen (resp : AxiosResponse) : Except JsErr JsVal :=
  if resp.status ≠ 200 then
    .error (.apiExn
      { errorCode := .SCHEMA_FETCH_REQUEST_INVALID_RESPONSE_CODE_ERROR
        stackTrace := .jnull
        httpStatusOrCode := .jnum resp.status
        request := resp.request
        response := some resp
        requestConfig := resp.config })
  else
    match jsIndexZero resp.data with
    | .error _ => .error .typeError
    | .ok e0 =>
      match jsMember e0 "attributes" with
      | .error _ => .error .typeError
      | .ok attrs => .ok attrs

/-- The function `getProfileSchemas`, over the settled HTTP outcome. -/
def getProfileSchemas (httpOutcome : Except AxiosError AxiosResponse) :
    Except JsErr JsVal :=
  match httpOutcome with
  | .error e =>
    .error (.apiExn (wrapCatch .SCHEMA_FETCH_REQUEST_ERROR (.axiosErr e)))
  | .ok resp =>
    (getProfileSchemasThen resp).mapError
      fun e => .apiExn (wrapCatch .SCHEMA_FETCH_REQUEST_ERROR e)

/-- The linked-account descriptor, restricted to the fields `switchAccount`
reads. -/
structure LinkedAccountInterface where
  tenantDomain : String
  username : String
  userStoreDomain : String
  deriving Repr

/-- The `data` field of the custom-grant request issued by `switchAccount`,
with the hyphenated JSON keys `tenant-domain` and `userstore-domain` rendered
as underscored Lean field names. -/
structure CustomGrantData where
  clientId : String
  grantType : String
  scope : String
  tenant_domain : String
  token : String
  username : String
  userstore_domain : String
  deriving Repr

/-- The custom-grant request descriptor passed to `auth.customGrant`. -/
structure CustomGrantConfig where
  attachToken : Bool
  data : CustomGrantData
  returnResponse : Bool
  returnsSession : Bool
  signInRequired : Bool
  deriving Repr

/-- The grant request `switchAccount` builds for a linked account. -/
def switchAccountGrantConfig (account : LinkedAccountInterface) : CustomGrantConfig :=
  { attachToken := false
    data :=
      { clientId := "{{clientId}}"
        grantType := "account_switch"
        scope := "{{scope}}"
        tenant_domain := account.tenantDomain
        token := "{{token}}"
        username := account.username
        userstore_domain := account.userStoreDomain }
    returnResponse := true
    returnsSession := true
    signInRequired := true }

/-- The sign-in response of the authentication module, restricted to the
`data` field that `switchAccount` reads. -/
structure SignInResponse where
  data : JsVal
  deriving Repr

/-- The function `switchAccount`: issues the custom grant and resolves with
`response?.data` (optional chaining: `undefined` when the response is
nullish); on failure throws `ACCOUNT_SWITCH_REQUEST_ERROR` wrapping the
error's diagnostics. Returns the settled outcome together with the grant
request that was issued. -/
def switchAccount (account : LinkedAccountInterface)
    (outcome : Except AxiosError (Option SignInResponse)) :
    Except JsErr JsVal × CustomGrantConfig :=
  (match outcome with
   | .ok r =>
     .ok (match r with
          | some resp => resp.data
          | none => .jundefined)
   | .error e =>
     .error (.apiExn (wrapCatch .ACCOUNT_SWITCH_REQUEST_ERROR (.axiosErr e))),
   switchAccountGrantConfig account)

/-! ## Email template list page -/

/-- JS `Array.prototype.slice(start, stop)` for non-negative indices:
the elements from `start` (inclusive) to `stop` (exclusive), clamped to the
array bounds. -/
def jsSlice {α : Type} (xs : List α) (start stop : Nat) : List α :=
  (xs.take stop).drop start

/-- The component's pagination helper `setEmailTemplateTypePage`,
`emailTemplates?.slice(offsetValue, itemLimit + offsetValue)`. -/
def setEmailTemplateTypePage {α : Type} (emailTemplates : List α)
    (offsetValue itemLimit : Nat) : List α :=
  jsSlice emailTemplates offsetValue (itemLimit + offsetValue)

/-- The email-template-type details returned by `getEmailTemplate`:
`displayName` and the `templates` list. `templates` is `none` when the field
is not an array (the component guards with `instanceof Array`). -/
structure EmailTemplateDetails (α : Type) where
  displayName : String
  templates : Option (List α)
  deriving Repr

/-- The response consumed by the page's fetch effect. -/
structure TemplatesResponse (α : Type) where
  status : Int
  data : EmailTemplateDetails α
  deriving Repr

/-- The local UI state of the `EmailTemplates` page component. -/
structure EmailTemplatesState (α : Type) where
  listItemLimit : Nat
  listOffset : Nat
  templateTypeId : String
  emailTemplateTypeDetails : Option (EmailTemplateDetails α)
  emailTemplates : List α
  paginatedemailTemplates : List α
  deriving Repr

/-- A network request issued by the page component. -/
inductive PageRequest where
  | getEmailTemplate (templateTypeId : String) : PageRequest
  deriving DecidableEq, Repr

/-- The events the page component reacts to: the two mount effects (the
default-item-limit effect and the fetch effect over the current URL path
segments), the arrival of the fetch response, and the two pagination
handlers. -/
inductive PageEvent (α : Type) where
  | initLimitEffect (defaultLimit : Nat) : PageEvent α
  | runFetchEffect (pathSegments : List String) : PageEvent α
  | fetchResponse (resp : TemplatesResponse α) : PageEvent α
  | paginationChange (activePage : Nat) : PageEvent α
  | itemsPerPageChange (value : Nat) : PageEvent α

/-- One step of the `EmailTemplates` component: the state updates performed
by each handler / effect, paired with the network requests it issues. The
fetch-response update paginates with the state's current `emailTemplates`
(the closure captured before `setEmailTemplates` lands), exactly as the
source does. -/
def pageStep {α : Type} (s : EmailTemplatesState α) :
    PageEvent α → EmailTemplatesState α × List PageRequest
  | .initLimitEffect d => ({ s with listItemLimit := d }, [])
  | .runFetchEffect path =>
    let tid := path.getLastD ""
    ({ s with templateTypeId := tid }, [.getEmailTemplate tid])
  | .fetchResponse resp =>
    if resp.status = 200 then
      match resp.data.templates with
      | some (t :: ts) =>
        ({ s with
            emailTemplateTypeDetails := some resp.data
            emailTemplates := t :: ts
            paginatedemailTemplates :=
              setEmailTemplateTypePage s.emailTemplates s.listOffset s.listItemLimit },
         [])
      | _ => ({ s with emailTemplateTypeDetails := some resp.data }, [])
    else (s, [])
  | .paginationChange activePage =>
    let offsetValue := (activePage - 1) * s.listItemLimit
    ({ s with
        listOffset := offsetValue
        paginatedemailTemplates :=
          setEmailTemplateTypePage s.emailTemplates offsetValue s.listItemLimit },
     [])
  | .itemsPerPageChange value =>
    ({ s with
        listItemLimit := value
        paginatedemailTemplates :=
          setEmailTemplateTypePage s.emailTemplates s.listOffset value },
     [])

/-! ## Application feature configuration

The external interface types the configuration's function leaves mention
(`ReactElement`, `ReactNode`, `ExtendedClaimInterface`,
`ExtendedExternalClaimInterface`, `SelectedDialectInterface`,
`ApplicationInterface`, `ApplicationTabTypes`) are opaque to this code, so
the configuration is parameterised over them; `null` return values are
modelled as `none`. -/

/-- Config subtree `applicationConfig.advancedConfigurations`. -/
structure AdvancedConfigurationsConfig where
  showEnableAuthorization : Bool
  showMyAccount : Bool
  showReturnAuthenticatedIdPs : Bool
  showSaaS : Bool

/-- Config subtree `applicationConfig.attributeSettings.advancedAttributeSettings`. -/
structure AdvancedAttributeSettingsConfig where
  showIncludeTenantDomain : Bool
  showIncludeUserstoreDomainRole : Bool
  showIncludeUserstoreDomainSubject : Bool
  showRoleAttribute : Bool
  showRoleMapping : Bool
  showSubjectAttribute : Bool
  showUseMappedLocalSubject : Bool

/-- Config subtree `applicationConfig.attributeSettings.attributeSelection`. -/
structure AttributeSelectionConfig (Claim ExtClaim Dialect : Type) where
  getClaims : List Claim → List Claim
  getExternalClaims : List ExtClaim → List ExtClaim
  showAttributePlaceholderTitle : Bool
  showShareAttributesHint : Dialect → Bool

/-- Config subtree `applicationConfig.attributeSettings`. -/
structure AttributeSettingsConfig (Claim ExtClaim Dialect : Type) where
  advancedAttributeSettings : AdvancedAttributeSettingsConfig
  attributeSelection : AttributeSelectionConfig Claim ExtClaim Dialect
  makeSubjectMandatory : Bool
  roleMapping : Bool

/-- Config subtree `applicationConfig.customApplication`. -/
structure CustomApplicationConfig where
  allowedProtocolTypes : List String
  defaultTabIndex : Nat

/-- Config subtree `applicationConfig.editApplication`. -/
structure EditApplicationConfig (Elem Node App Tab : Type) where
  extendTabs : Bool
  getActions : String → String → String → Option Elem
  getOveriddenTab : String → Tab → Elem → String → String → String → Elem
  getOverriddenDescription : String → String → String → Option Elem
  getOverriddenImage : String → String → Option Elem
  getStrongAuthenticationFlowTabIndex : String → String → String → String → Nat
  getTabPanelReadOnlyStatus : String → App → Bool
  isTabEnabledForApp : String → Tab → String → Bool
  renderHelpPanelItems : Unit → Option Node
  showApplicationShare : Bool
  showDangerZone : App → Bool
  showDeleteButton : App → Bool
  showProvisioningSettings : Bool

/-- Config subtree `applicationConfig.generalSettings`. -/
structure GeneralSettingsConfig (App : Type) where
  getFieldReadOnlyStatus : App → String → Bool

/-- Config subtree `applicationConfig.inboundOIDCForm`. -/
structure InboundOIDCFormConfig where
  disabledGrantTypes : List (String × List String)
  shouldValidateCertificate : Bool
  showBackChannelLogout : Bool
  showCertificates : Bool
  showClientSecretMessage : Bool
  showFrontChannelLogout : Bool
  showIdTokenEncryption : Bool
  showNativeClientSecretMessage : Bool
  showRequestObjectSignatureValidation : Bool
  showReturnAuthenticatedIdPList : Bool
  showScopeValidators : Bool

/-- Config subtree `applicationConfig.inboundSAMLForm`. -/
structure InboundSAMLFormConfig where
  artifactBindingAllowed : Bool
  showApplicationQualifier : Bool
  showAttributeConsumingServiceIndex : Bool
  showQueryRequestProfile : Bool

/-- Config subtree `applicationConfig.marketingConsent`. -/
structure MarketingConsentConfig (Elem : Type) where
  getBannerComponent : Unit → Option Elem

/-- Config subtree `applicationConfig.signInMethod.authenticatorSelection.messages`. -/
structure AuthenticatorMessagesConfig (Node : Type) where
  secondFactorDisabled : Option Node
  secondFactorDisabledInFirstStep : Option Node

/-- Config subtree `applicationConfig.signInMethod.authenticatorSelection`. -/
structure AuthenticatorSelectionConfig (Node : Type) where
  customAuthenticatorAdditionValidation : Unit → Bool
  messages : AuthenticatorMessagesConfig Node

/-- Config subtree `applicationConfig.signInMethod`. -/
structure SignInMethodConfig (Node : Type) where
  authenticatorSelection : AuthenticatorSelectionConfig Node

/-- Config subtree `applicationConfig.templates`. -/
structure TemplatesConfig where
  custom : Bool
  mobile : Bool
  oidc : Bool
  saml : Bool
  spa : Bool
  windows : Bool

/-- The `ApplicationConfig` shape. -/
structure ApplicationConfig (Claim ExtClaim Dialect Elem Node App Tab : Type) where
  advancedConfigurations : AdvancedConfigurationsConfig
  attributeSettings : AttributeSettingsConfig Claim ExtClaim Dialect
  customApplication : CustomApplicationConfig
  editApplication : EditApplicationConfig Elem Node App Tab
  excludeIdentityClaims : Bool
  excludeSubjectClaim : Bool
  generalSettings : GeneralSettingsConfig App
  inboundOIDCForm : InboundOIDCFormConfig
  inboundSAMLForm : InboundSAMLFormConfig
  marketingConsent : MarketingConsentConfig Elem
  signInMethod : SignInMethodConfig Node
  templates : TemplatesConfig

/-- The static `applicationConfig` object. -/
def applicationConfig (Claim ExtClaim Dialect Elem Node App Tab : Type) :
    ApplicationConfig Claim ExtClaim Dialect Elem Node App Tab :=
  { advancedConfigurations :=
      { showEnableAuthorization := true
        showMyAccount := false
        showReturnAuthenticatedIdPs := true
        showSaaS := true }
    attributeSettings :=
      { advancedAttributeSettings :=
          { showIncludeTenantDomain := true
            showIncludeUserstoreDomainRole := true
            showIncludeUserstoreDomainSubject := true
            showRoleAttribute := true
            showRoleMapping := true
            showSubjectAttribute := false
            showUseMappedLocalSubject := true }
        attributeSelection :=
          { getClaims := fun claims => claims
            getExternalClaims := fun claims => claims
            showAttributePlaceholderTitle := false
            showShareAttributesHint := fun _selectedDialect => true }
        makeSubjectMandatory := true
        roleMapping := true }
    customApplication :=
      { allowedProtocolTypes := []
        defaultTabIndex := 0 }
    editApplication :=
      { extendTabs := false
        getActions := fun _clientId _tenant _testId => none
        getOveriddenTab :=
          fun _clientId _tabName defaultComponent _appName _appId _tenantDomain =>
            defaultComponent
        getOverriddenDescription := fun _clientId _templateName _tenantDomain => none
        getOverriddenImage := fun _clientId _tenantDomain => none
        getStrongAuthenticationFlowTabIndex :=
          fun _clientId _tenantDomain templateId customApplicationTemplateId =>
            if templateId = customApplicationTemplateId then 3 else 4
        getTabPanelReadOnlyStatus := fun _tabPanelName _applicationName => false
        isTabEnabledForApp := fun _clientId _tabType _tenantDomain => true
        renderHelpPanelItems := fun _ => none
        showApplicationShare := true
        showDangerZone := fun _application => true
        showDeleteButton := fun _application => true
        showProvisioningSettings := true }
    excludeIdentityClaims := false
    excludeSubjectClaim := false
    generalSettings :=
      { getFieldReadOnlyStatus := fun _application _fieldName => false }
    inboundOIDCForm :=
      { disabledGrantTypes := [("custom-application", [])]
        shouldValidateCertificate := true
        showBackChannelLogout := true
        showCertificates := true
        showClientSecretMessage := true
        showFrontChannelLogout := false
        showIdTokenEncryption := true
        showNativeClientSecretMessage := true
        showRequestObjectSignatureValidation := true
        showReturnAuthenticatedIdPList := true
        showScopeValidators := true }
    inboundSAMLForm :=
      { artifactBindingAllowed := true
        showApplicationQualifier := true
        showAttributeConsumingServiceIndex := true
        showQueryRequestProfile := true }
    marketingConsent := { getBannerComponent := fun _ => none }
    signInMethod :=
      { authenticatorSelection :=
          { customAuthenticatorAdditionValidation := fun _ => true
            messages :=
              { secondFactorDisabled := none
                secondFactorDisabledInFirstStep := none } } }
    templates :=
      { custom := true
        mobile := true
        oidc := true
        saml := true
        spa := true
        windows := true } }

/-! ## Helper definitions and lemmas for the claims -/

/-- The promise settled successfully. -/
def resolvesOk : Except JsErr JsVal → Bool
  | .ok _ => true
  | .error _ => false

/-- The value of field `k` of a resolved object result. -/
def resultField (r : Except JsErr JsVal) (k : String) : Option JsVal :=
  match r with
  | .ok v => some (jsGetD v k)
  | .error _ => none

/-- The error-code constant carried by a rejected call's exception. -/
def surfacedCode : Except JsErr JsVal → Option ProfileConstant
  | .error (.apiExn ex) => some ex.errorCode
  | _ => none

/-- Every failure of the call is an `IdentityAppsApiException` carrying the
fixed constant `c`. -/
def failsUniformly (r : Except JsErr JsVal) (c : ProfileConstant) : Prop :=
  match r with
  | .ok _ => True
  | .error (.apiExn ex) => ex.errorCode = c
  | .error _ => False

theorem assocGetLast_append_right_none {k : String}
    {b : List (String × JsVal)} (a : List (String × JsVal))
    (h : assocGetLast k b = none) :
    assocGetLast k (a ++ b) = assocGetLast k a := by
  induction a with
  | nil => simpa [assocGetLast] using h
  | cons p a ih =>
    simp only [List.cons_append, assocGetLast, List.append_eq, ih]

theorem getProfileInfoThen_200 (go : Except JsErr String)
    (fs : List (String × JsVal)) (req cfg : JsVal) :
    getProfileInfoThen go ⟨200, .jobj fs, req, cfg⟩ =
      (.ok (.jobj (profileResponseFields (.jobj fs)
          (gravatarStep (.jobj fs) go).1 200)),
       (gravatarStep (.jobj fs) go).2) := by
  simp [getProfileInfoThen, jsNullish]

theorem getProfileInfo_ok_200 (go : Except JsErr String)
    (fs : List (String × JsVal)) (req cfg : JsVal) :
    getProfileInfo (.ok ⟨200, .jobj fs, req, cfg⟩) go =
      { result := .ok (.jobj (profileResponseFields (.jobj fs)
            (gravatarStep (.jobj fs) go).1 200))
        scimDisabledCalls := 0
        gravatarAttempts := (gravatarStep (.jobj fs) go).2 } := by
  simp [getProfileInfo, getProfileInfoThen_200]

theorem resultField_profile_of_absent (fs : List (String × JsVal))
    (g : String) (st : Int) (k : String) (h : assocGetLast k fs = none) :
    resultField (.ok (.jobj (profileResponseFields (.jobj fs) g st))) k =
      some ((assocGetLast k (profileResponseExplicit (.jobj fs) g st)).getD
        .jundefined) := by
  simp [resultField, jsGetD, profileResponseFields, spreadFields,
    assocGetLast_append_right_none _ h]

/-! ## Claim theorems -/

/-- C4: `setEmailTemplateTypePage` computes the slice
`templates[offset : offset + limit]`; over a 25-item list, `offset=0,
limit=10` yields items 0 through 9 and `offset=20, limit=10` yields items 20
through 24, with no out-of-bounds failure. -/
theorem setEmailTemplateTypePage_slice :
    (∀ (α : Type) (templates : List α) (off lim : Nat),
        setEmailTemplateTypePage templates off lim = (templates.drop off).take lim)
    ∧ setEmailTemplateTypePage (List.range 25) 0 10 =
        [0, 1, 2, 3, 4, 5, 6, 7, 8, 9]
    ∧ setEmailTemplateTypePage (List.range 25) 20 10 =
        [20, 21, 22, 23, 24] := by
  refine ⟨fun α templates off lim => ?_, rfl, rfl⟩
  unfold setEmailTemplateTypePage jsSlice
  rw [List.drop_take]
  congr 1
  omega

/-- C5: the pagination-change and items-per-page handlers issue no network
request, leave the fetched template list unchanged, and recompute the visible
slice from the already-fetched list via `setEmailTemplateTypePage`. -/
theorem pageHandlers_recompute_without_refetch
    (α : Type) (s : EmailTemplatesState α) (p v : Nat) :
    (pageStep s (.paginationChange p)).2 = []
    ∧ (pageStep s (.itemsPerPageChange v)).2 = []
    ∧ (pageStep s (.paginationChange p)).1.emailTemplates = s.emailTemplates
    ∧ (pageStep s (.itemsPerPageChange v)).1.emailTemplates = s.emailTemplates
    ∧ (pageStep s (.paginationChange p)).1.paginatedemailTemplates =
        setEmailTemplateTypePage s.emailTemplates ((p - 1) * s.listItemLimit)
          s.listItemLimit
    ∧ (pageStep s (.itemsPerPageChange v)).1.paginatedemailTemplates =
        setEmailTemplateTypePage s.emailTemplates s.listOffset v :=
  ⟨rfl, rfl, rfl, rfl, rfl, rfl⟩

/-- C8: `switchAccount` issues a custom grant whose data carries the grant
type `account_switch`, the account's tenant domain, username and user-store
domain, and a failed grant throws `ACCOUNT_SWITCH_REQUEST_ERROR`. -/
theorem switchAccount_grant_payload (account : LinkedAccountInterface)
    (outcome : Except AxiosError (Option SignInResponse)) (e : AxiosError) :
    (switchAccount account outcome).2.data.grantType = "account_switch"
    ∧ (switchAccount account outcome).2.data.tenant_domain = account.tenantDomain
    ∧ (switchAccount account outcome).2.data.username = account.username
    ∧ (switchAccount account outcome).2.data.userstore_domain = account.userStoreDomain
    ∧ surfacedCode (switchAccount account (.error e)).1 =
        some .ACCOUNT_SWITCH_REQUEST_ERROR :=
  ⟨rfl, rfl, rfl, rfl, rfl⟩

/-- C10: the override hooks of `applicationConfig.editApplication` apply no
override: `getOveriddenTab` is the identity in its `defaultComponent`
argument and `getActions`, `getOverriddenDescription` and
`getOverriddenImage` return `null` for every input. -/
theorem applicationConfig_override_hooks_identity
    (Claim ExtClaim Dialect Elem Node App Tab : Type)
    (clientId tenant testId appName appId tenantDomain templateName : String)
    (tab : Tab) (defaultComponent : Elem) :
    (applicationConfig Claim ExtClaim Dialect Elem Node App Tab).editApplication.getOveriddenTab
        clientId tab defaultComponent appName appId tenantDomain = defaultComponent
    ∧ (applicationConfig Claim ExtClaim Dialect Elem Node App Tab).editApplication.getActions
        clientId tenant testId = none
    ∧ (applicationConfig Claim ExtClaim Dialect Elem Node App Tab).editApplication.getOverriddenDescription
        clientId templateName tenantDomain = none
    ∧ (applicationConfig Claim ExtClaim Dialect Elem Node App Tab).editApplication.getOverriddenImage
        clientId tenantDomain = none :=
  ⟨rfl, rfl, rfl, rfl⟩

/-- C9 counterexample: a 200 response whose data array's first element is an
object with no `attributes` field makes `getProfileSchemas` resolve (with
`undefined`), not reject. -/
theorem getProfileSchemas_missing_attributes_counterexample :
    getProfileSchemas (.ok ⟨200, .jarr [.jobj []], .jundefined, .jundefined⟩) =
      .ok .jundefined := rfl

/-- C9 (amended): on a 200 response with an empty data array (or a nullish
first element) the `data[0].attributes` read raises a `TypeError` and the
call rejects with the generic `SCHEMA_FETCH_REQUEST_ERROR`; when the first
element is an object the call resolves with its `attributes` value, which is
`undefined` when the field is absent. -/
theorem getProfileSchemas_first_element_behavior (req cfg : JsVal)
    (fs : List (String × JsVal)) (rest : List JsVal) :
    getProfileSchemas (.ok ⟨200, .jarr [], req, cfg⟩) =
      .error (.apiExn
        { errorCode := .SCHEMA_FETCH_REQUEST_ERROR
          stackTrace := .jundefined
          httpStatusOrCode := .jundefined
          request := .jundefined
          response := none
          requestConfig := .jundefined })
    ∧ getProfileSchemas (.ok ⟨200, .jarr (.jnull :: rest), req, cfg⟩) =
      .error (.apiExn
        { errorCode := .SCHEMA_FETCH_REQUEST_ERROR
          stackTrace := .jundefined
          httpStatusOrCode := .jundefined
          request := .jundefined
          response := none
          requestConfig := .jundefined })
    ∧ getProfileSchemas (.ok ⟨200, .jarr (.jobj fs :: rest), req, cfg⟩) =
      .ok ((assocGetLast "attributes" fs).getD .jundefined) :=
  ⟨rfl, rfl, rfl⟩

/-- C1 counterexample: a resolved 201 response to `getProfileInfo` surfaces an
exception carrying the generic `PROFILE_INFO_FETCH_REQUEST_ERROR`, not the
designated `PROFILE_INFO_FETCH_REQUEST_INVALID_RESPONSE_CODE_ERROR`: the
chained catch handler rewraps the inner invalid-response-code exception. -/
theorem getProfileInfo_non200_counterexample :
    (getProfileInfo
        (.ok ⟨201, .jobj [("userImage", .jstr "x")], .jundefined, .jundefined⟩)
        (.ok "")).result =
      .error (.apiExn
        { errorCode := .PROFILE_INFO_FETCH_REQUEST_ERROR
          stackTrace := .jundefined
          httpStatusOrCode := .jundefined
          request := .jundefined
          response := some ⟨201, .jobj [("userImage", .jstr "x")], .jundefined, .jundefined⟩
          requestConfig := .jundefined })
    ∧ ProfileConstant.PROFILE_INFO_FETCH_REQUEST_ERROR ≠
        ProfileConstant.PROFILE_INFO_FETCH_REQUEST_INVALID_RESPONSE_CODE_ERROR :=
  ⟨rfl, by decide⟩

/-- C1 (amended): on a resolved response with status other than 200, each of
`getProfileInfo`, `updateProfileInfo` and `getProfileSchemas` throws its
designated invalid-response-code constant inside the response handler, but
the chained catch handler rewraps that exception, so the exception surfaced
to the caller carries the operation's generic request-error constant instead
(`getGravatarImage` has no invalid-response-code constant; its failures
surface `GRAVATAR_IMAGE_FETCH_REQUEST_ERROR`). -/
theorem clientCalls_non200_generic_error (resp : AxiosResponse)
    (go : Except JsErr String) (h : resp.status ≠ 200) :
    (getProfileInfoThen go resp).1 =
      .error (.apiExn
        { errorCode := .PROFILE_INFO_FETCH_REQUEST_INVALID_RESPONSE_CODE_ERROR
          stackTrace := .jnull
          httpStatusOrCode := .jnum resp.status
          request := resp.request
          response := some resp
          requestConfig := resp.config })
    ∧ surfacedCode (getProfileInfo (.ok resp) go).result =
        some .PROFILE_INFO_FETCH_REQUEST_ERROR
    ∧ updateProfileInfoThen resp =
      .error (.apiExn
        { errorCode := .PROFILE_INFO_UPDATE_REQUEST_INVALID_RESPONSE_CODE_ERROR
          stackTrace := .jnull
          httpStatusOrCode := .jnum resp.status
          request := resp.request
          response := some resp
          requestConfig := resp.config })
    ∧ surfacedCode (updateProfileInfo (.ok resp)) =
        some .PROFILE_INFO_UPDATE_REQUEST_ERROR
    ∧ getProfileSchemasThen resp =
      .error (.apiExn
        { errorCode := .SCHEMA_FETCH_REQUEST_INVALID_RESPONSE_CODE_ERROR
          stackTrace := .jnull
          httpStatusOrCode := .jnum resp.status
          request := resp.request
          response := some resp
          requestConfig := resp.config })
    ∧ surfacedCode (getProfileSchemas (.ok resp)) =
        some .SCHEMA_FETCH_REQUEST_ERROR := by
  refine ⟨?_, ?_, ?_, ?_, ?_, ?_⟩ <;>
    simp [getProfileInfoThen, getProfileInfo, updateProfileInfoThen,
      updateProfileInfo, getProfileSchemasThen, getProfileSchemas,
      surfacedCode, wrapCatch, Except.mapError, JsErr.stackOf, JsErr.codeOf,
      JsErr.requestOf, JsErr.responseOf, JsErr.configOf, h]

/-- C1 witness: at a concrete 201 response, `getProfileInfo` surfaces the
generic fetch-error constant. -/
theorem clientCalls_non200_generic_error_witness :
    surfacedCode (getProfileInfo (.ok ⟨201, .jobj [], .jundefined, .jundefined⟩)
        (.ok "")).result = some .PROFILE_INFO_FETCH_REQUEST_ERROR :=
  (clientCalls_non200_generic_error ⟨201, .jobj [], .jundefined, .jundefined⟩ (.ok "")
    (by decide)).2.1

/-- C3: `onSCIMDisabled` is invoked exactly once when and only when the
`getProfileInfo` call fails and the caught error's response payload carries
`status === "500"` (the surfaced exception's `response`), and zero times on
every other failing or succeeding call. -/
theorem getProfileInfo_scimDisabled_exactly_once
    (ho : Except AxiosError AxiosResponse) (go : Except JsErr String) :
    (getProfileInfo ho go).scimDisabledCalls =
      match (getProfileInfo ho go).result with
      | .ok _ => 0
      | .error er => if payloadReports500 er.responseOf then 1 else 0 := by
  cases ho with
  | error e =>
    simp [getProfileInfo, scimDisabledCond, wrapCatch, JsErr.responseOf]
  | ok resp =>
    cases hth : getProfileInfoThen go resp with
    | mk res g =>
      cases res with
      | ok v => simp [getProfileInfo, hth]
      | error e =>
        simp [getProfileInfo, hth, scimDisabledCond, wrapCatch, JsErr.responseOf]

/-- C7: every failure path of the five client operations throws the single
exception type `IdentityAppsApiException` carrying the operation's fixed
error-code constant; a transport error is wrapped with the original error's
`stack`, `code`, `request`, `response` and `config`. -/
theorem clientCalls_uniform_exception :
    (∀ (url : String) (e : AxiosError),
        getGravatarImage url (.error e) =
          .error (.apiExn
            { errorCode := .GRAVATAR_IMAGE_FETCH_REQUEST_ERROR
              stackTrace := e.stack
              httpStatusOrCode := e.code
              request := e.request
              response := e.response
              requestConfig := e.config }))
    ∧ (∀ (ho : Except AxiosError AxiosResponse) (go : Except JsErr String),
        failsUniformly (getProfileInfo ho go).result
          .PROFILE_INFO_FETCH_REQUEST_ERROR)
    ∧ (∀ (e : AxiosError) (go : Except JsErr String),
        (getProfileInfo (.error e) go).result =
          .error (.apiExn
            { errorCode := .PROFILE_INFO_FETCH_REQUEST_ERROR
              stackTrace := e.stack
              httpStatusOrCode := e.code
              request := e.request
              response := e.response
              requestConfig := e.config }))
    ∧ (∀ ho : Except AxiosError AxiosResponse,
        failsUniformly (updateProfileInfo ho) .PROFILE_INFO_UPDATE_REQUEST_ERROR)
    ∧ (∀ e : AxiosError,
        updateProfileInfo (.error e) =
          .error (.apiExn
            { errorCode := .PROFILE_INFO_UPDATE_REQUEST_ERROR
              stackTrace := e.stack
              httpStatusOrCode := e.code
              request := e.request
              response := e.response
              requestConfig := e.config }))
    ∧ (∀ ho : Except AxiosError AxiosResponse,
        failsUniformly (getProfileSchemas ho) .SCHEMA_FETCH_REQUEST_ERROR)
    ∧ (∀ e : AxiosError,
        getProfileSchemas (.error e) =
          .error (.apiExn
            { errorCode := .SCHEMA_FETCH_REQUEST_ERROR
              stackTrace := e.stack
              httpStatusOrCode := e.code
              request := e.request
              response := e.response
              requestConfig := e.config }))
    ∧ (∀ (account : LinkedAccountInterface)
        (outcome : Except AxiosError (Option SignInResponse)),
        failsUniformly (switchAccount account outcome).1
          .ACCOUNT_SWITCH_REQUEST_ERROR)
    ∧ (∀ (account : LinkedAccountInterface) (e : AxiosError),
        (switchAccount account (.error e)).1 =
          .error (.apiExn
            { errorCode := .ACCOUNT_SWITCH_REQUEST_ERROR
              stackTrace := e.stack
              httpStatusOrCode := e.code
              request := e.request
              response := e.response
              requestConfig := e.config })) := by
  refine ⟨fun url e => rfl, ?_, fun e go => rfl, ?_, fun e => rfl, ?_,
    fun e => rfl, ?_, fun account e => rfl⟩
  · intro ho go
    cases ho with
    | error e => exact rfl
    | ok resp =>
      cases hth : getProfileInfoThen go resp with
      | mk res g =>
        cases res with
        | ok v => simp [failsUniformly, getProfileInfo, hth]
        | error e => simp [failsUniformly, getProfileInfo, hth, wrapCatch]
  · intro ho
    cases ho with
    | error e => exact rfl
    | ok resp =>
      cases hres : updateProfileInfoThen resp with
      | ok v => simp [failsUniformly, updateProfileInfo, hres, Except.mapError]
      | error e => simp [failsUniformly, updateProfileInfo, hres, wrapCatch, Except.mapError]
  · intro ho
    cases ho with
    | error e => exact rfl
    | ok resp =>
      cases hres : getProfileSchemasThen resp with
      | ok v => simp [failsUniformly, getProfileSchemas, hres, Except.mapError]
      | error e => simp [failsUniformly, getProfileSchemas, hres, wrapCatch, Except.mapError]
  · intro account outcome
    cases outcome with
    | error e => exact rfl
    | ok r => cases r <;> exact trivial

/-- C2 counterexample: a 200 response with an empty body has both `userImage`
and `profileUrl` absent, yet `getProfileInfo` never invokes
`getGravatarImage` (reading `emails[0]` throws inside the try block first);
the call still resolves with an empty `userImage`. -/
theorem getProfileInfo_gravatar_counterexample :
    (getProfileInfo (.ok ⟨200, .jobj [], .jundefined, .jundefined⟩)
        (.ok "url")).gravatarAttempts = 0
    ∧ resolvesOk (getProfileInfo (.ok ⟨200, .jobj [], .jundefined, .jundefined⟩)
        (.ok "url")).result = true
    ∧ resultField (getProfileInfo (.ok ⟨200, .jobj [], .jundefined, .jundefined⟩)
        (.ok "url")).result "userImage" = some (.jstr "") :=
  ⟨rfl, rfl, rfl⟩

/-- C2 (amended): on a 200 response whose body has both `userImage` and
`profileUrl` absent, `getProfileInfo` enters the gravatar fallback; when the
body yields a readable email address (`emails[0]` a string, or an object
whose `value` is readable) `getGravatarImage` is invoked exactly once, and
when reading the address throws it is not invoked at all; in either case, if
the gravatar fetch fails the returned profile's `userImage` is the empty
string and the promise still resolves successfully. -/
theorem getProfileInfo_gravatar_fallback
    (fs : List (String × JsVal)) (req cfg : JsVal) (e : JsErr)
    (hU : assocGetLast "userImage" fs = none)
    (hP : assocGetLast "profileUrl" fs = none) :
    resolvesOk (getProfileInfo (.ok ⟨200, .jobj fs, req, cfg⟩)
        (.error e)).result = true
    ∧ resultField (getProfileInfo (.ok ⟨200, .jobj fs, req, cfg⟩)
        (.error e)).result "userImage" = some (.jstr "")
    ∧ (∀ em, emailArg (.jobj fs) = .ok em →
        (getProfileInfo (.ok ⟨200, .jobj fs, req, cfg⟩)
          (.error e)).gravatarAttempts = 1)
    ∧ (∀ te : Unit, emailArg (.jobj fs) = .error te →
        (getProfileInfo (.ok ⟨200, .jobj fs, req, cfg⟩)
          (.error e)).gravatarAttempts = 0) := by
  have hui : jsGetD (.jobj fs) "userImage" = .jundefined := by simp [jsGetD, hU]
  have hpu : jsGetD (.jobj fs) "profileUrl" = .jundefined := by simp [jsGetD, hP]
  have hgs : gravatarStep (.jobj fs) (.error e) =
      (match emailArg (.jobj fs) with
       | .error _ => ("", 0)
       | .ok _ => ("", 1)) := by
    unfold gravatarStep
    rw [hui, hpu]
    cases emailArg (.jobj fs) <;> simp [lodashIsEmpty, truthy]
  have hg1 : (gravatarStep (.jobj fs) (.error e)).1 = "" := by
    rw [hgs]; cases emailArg (.jobj fs) <;> rfl
  have hres : (getProfileInfo (.ok ⟨200, .jobj fs, req, cfg⟩) (.error e)).result =
      .ok (.jobj (profileResponseFields (.jobj fs)
        (gravatarStep (.jobj fs) (.error e)).1 200)) := by
    rw [getProfileInfo_ok_200]
  have hatt : (getProfileInfo (.ok ⟨200, .jobj fs, req, cfg⟩)
      (.error e)).gravatarAttempts = (gravatarStep (.jobj fs) (.error e)).2 := by
    rw [getProfileInfo_ok_200]
  refine ⟨?_, ?_, ?_, ?_⟩
  · rw [hres]; rfl
  · rw [hres, hg1, resultField_profile_of_absent _ _ _ _ hU]
    simp [profileResponseExplicit, assocGetLast, hui, hpu, jsOr, truthy]
  · intro em hem
    rw [hatt, hgs, hem]
  · intro te hem
    rw [hatt, hgs, hem]

/-- C2 witness: with a readable email in the body and a failing gravatar
fetch, the fetch is attempted exactly once, the call resolves, and
`userImage` is the empty string. -/
theorem getProfileInfo_gravatar_fallback_witness :
    resolvesOk (getProfileInfo
        (.ok ⟨200, .jobj [("emails", .jarr [.jstr "user@example.com"])],
          .jundefined, .jundefined⟩) (.error .typeError)).result = true
    ∧ resultField (getProfileInfo
        (.ok ⟨200, .jobj [("emails", .jarr [.jstr "user@example.com"])],
          .jundefined, .jundefined⟩) (.error .typeError)).result "userImage" =
      some (.jstr "")
    ∧ (getProfileInfo
        (.ok ⟨200, .jobj [("emails", .jarr [.jstr "user@example.com"])],
          .jundefined, .jundefined⟩) (.error .typeError)).gravatarAttempts = 1 := by
  have h := getProfileInfo_gravatar_fallback
    [("emails", .jarr [.jstr "user@example.com"])] .jundefined .jundefined .typeError
    rfl rfl
  exact ⟨h.1, h.2.1, h.2.2.1 (.jstr "user@example.com") rfl⟩

/-- C6: on a 200 response with an object body, `getProfileInfo` resolves, and
each field absent from the body gets its default: `emails` the empty string,
`name` the empty name object, `organisation` the empty string (when both the
enterprise-extension key and a literal `organisation` key are absent),
`phoneNumbers` the empty array, `profileUrl` the empty string, `roles` the
empty array, and `userName` the empty string. -/
theorem getProfileInfo_absent_field_defaults
    (fs : List (String × JsVal)) (req cfg : JsVal) (go : Except JsErr String) :
    resolvesOk (getProfileInfo (.ok ⟨200, .jobj fs, req, cfg⟩) go).result = true
    ∧ (assocGetLast "emails" fs = none →
        resultField (getProfileInfo (.ok ⟨200, .jobj fs, req, cfg⟩) go).result
          "emails" = some (.jstr ""))
    ∧ (assocGetLast "name" fs = none →
        resultField (getProfileInfo (.ok ⟨200, .jobj fs, req, cfg⟩) go).result
          "name" = some (.jobj [("familyName", .jstr ""), ("givenName", .jstr "")]))
    ∧ (assocGetLast "organisation" fs = none → assocGetLast orgKey fs = none →
        resultField (getProfileInfo (.ok ⟨200, .jobj fs, req, cfg⟩) go).result
          "organisation" = some (.jstr ""))
    ∧ (assocGetLast "phoneNumbers" fs = none →
        resultField (getProfileInfo (.ok ⟨200, .jobj fs, req, cfg⟩) go).result
          "phoneNumbers" = some (.jarr []))
    ∧ (assocGetLast "profileUrl" fs = none →
        resultField (getProfileInfo (.ok ⟨200, .jobj fs, req, cfg⟩) go).result
          "profileUrl" = some (.jstr ""))
    ∧ (assocGetLast "roles" fs = none →
        resultField (getProfileInfo (.ok ⟨200, .jobj fs, req, cfg⟩) go).result
          "roles" = some (.jarr []))
    ∧ (assocGetLast "userName" fs = none →
        resultField (getProfileInfo (.ok ⟨200, .jobj fs, req, cfg⟩) go).result
          "userName" = some (.jstr "")) := by
  have hres : (getProfileInfo (.ok ⟨200, .jobj fs, req, cfg⟩) go).result =
      .ok (.jobj (profileResponseFields (.jobj fs)
        (gravatarStep (.jobj fs) go).1 200)) := by
    rw [getProfileInfo_ok_200]
  refine ⟨by rw [hres]; rfl, ?_, ?_, ?_, ?_, ?_, ?_, ?_⟩
  · intro h
    rw [hres, resultField_profile_of_absent _ _ _ _ h]
    simp [profileResponseExplicit, assocGetLast, jsGetD, jsOr, truthy, h]
  · intro h
    rw [hres, resultField_profile_of_absent _ _ _ _ h]
    simp [profileResponseExplicit, assocGetLast, jsGetD, jsOr, truthy, h]
  · intro h horg
    rw [hres, resultField_profile_of_absent _ _ _ _ h]
    simp [profileResponseExplicit, assocGetLast, jsGetD, jsOr, truthy, h, horg]
  · intro h
    rw [hres, resultField_profile_of_absent _ _ _ _ h]
    simp [profileResponseExplicit, assocGetLast, jsGetD, jsOr, truthy, h]
  · intro h
    rw [hres, resultField_profile_of_absent _ _ _ _ h]
    simp [profileResponseExplicit, assocGetLast, jsGetD, jsOr, truthy, h]
  · intro h
    rw [hres, resultField_profile_of_absent _ _ _ _ h]
    simp [profileResponseExplicit, assocGetLast, jsGetD, jsOr, truthy, h]
  · intro h
    rw [hres, resultField_profile_of_absent _ _ _ _ h]
    simp [profileResponseExplicit, assocGetLast, jsGetD, jsOr, truthy, h]

/-- C6 witness: a 200 response with an empty body resolves with every listed
field at its default. -/
theorem getProfileInfo_absent_field_defaults_witness :
    resolvesOk (getProfileInfo (.ok ⟨200, .jobj [], .jundefined, .jundefined⟩)
        (.ok "")).result = true
    ∧ resultField (getProfileInfo (.ok ⟨200, .jobj [], .jundefined, .jundefined⟩)
        (.ok "")).result "emails" = some (.jstr "")
    ∧ resultField (getProfileInfo (.ok ⟨200, .jobj [], .jundefined, .jundefined⟩)
        (.ok "")).result "name" =
      some (.jobj [("familyName", .jstr ""), ("givenName", .jstr "")])
    ∧ resultField (getProfileInfo (.ok ⟨200, .jobj [], .jundefined, .jundefined⟩)
        (.ok "")).result "organisation" = some (.jstr "")
    ∧ resultField (getProfileInfo (.ok ⟨200, .jobj [], .jundefined, .jundefined⟩)
        (.ok "")).result "phoneNumbers" = some (.jarr [])
    ∧ resultField (getProfileInfo (.ok ⟨200, .jobj [], .jundefined, .jundefined⟩)
        (.ok "")).result "profileUrl" = some (.jstr "")
    ∧ resultField (getProfileInfo (.ok ⟨200, .jobj [], .jundefined, .jundefined⟩)
        (.ok "")).result "roles" = some (.jarr [])
    ∧ resultField (getProfileInfo (.ok ⟨200, .jobj [], .jundefined, .jundefined⟩)
        (.ok "")).result "userName" = some (.jstr "") := by
  have h := getProfileInfo_absent_field_defaults [] .jundefined .jundefined (.ok "")
  exact ⟨h.1, h.2.1 rfl, h.2.2.1 rfl, h.2.2.2.1 rfl rfl, h.2.2.2.2.1 rfl,
    h.2.2.2.2.2.1 rfl, h.2.2.2.2.2.2.1 rfl, h.2.2.2.2.2.2.2 rfl⟩

end IdentityApps
